import Mathlib

/-!
Verification development for the SGCF client script (`src/script.js`).

The script's form-submission pipeline, mock API gateway, serialization
routine, donation-form visibility rules and theme toggle are embedded as
executable Lean definitions, and the specification's properties about them
are proved below.  JavaScript-specific behaviour that matters here is
modelled explicitly:

* a field value in the serialized object is either a scalar string or an
  array of strings (`JsValue`);
* JavaScript truthiness of such values: `undefined` (absent) and the empty
  string are falsy, every array (even empty) is truthy (`truthyV`);
* `a || b` on strings picks `b` when `a` is absent or empty (`jsOrStr`);
* `String.prototype.startsWith` / `endsWith` are embedded as character-list
  operations (`strStartsWith` / `strEndsWith`) so that they compute in the
  kernel.

Asynchronous calls are embedded by passing the settled result of the
gateway promise (`Except String ApiResponse`) to the handler as an
argument, and nondeterministic inputs (`Math.random()`, `Date.now()`) are
gathered in an `Env` parameter.
-/

namespace SGCF

/-- A form control as seen through `form.elements` in `serializeForm`:
its `name`, `type`, current `value`, `checked` and `disabled` flags, and
the HTML default value/checked state that `form.reset()` restores. -/
structure Element where
  name : String
  type : String
  value : String
  checked : Bool
  disabled : Bool
  defaultValue : String
  defaultChecked : Bool
deriving Repr, DecidableEq

/-- A value stored in the serialized form object: a scalar string or an
array of strings (script.js stores either `element.value` or arrays). -/
inductive JsValue where
  | str (s : String)
  | arr (xs : List String)
deriving Repr, DecidableEq

/-- The serialized form object, as an ordered key/value map. -/
abbrev Data := List (String × JsValue)

/-- Property lookup `data[name]`: `none` models `undefined`. -/
def dataGet : Data → String → Option JsValue
  | [], _ => none
  | (k, v) :: rest, n => if k = n then some v else dataGet rest n

/-- Property assignment `data[name] = v`: replaces an existing binding
in place, otherwise appends a new one. -/
def dataSet : Data → String → JsValue → Data
  | [], n, v => [(n, v)]
  | (k, w) :: rest, n, v =>
      if k = n then (n, v) :: rest else (k, w) :: dataSet rest n v

/-- JavaScript truthiness of `data[name]`: absent and `""` are falsy,
arrays (including the empty array) are truthy. -/
def truthyV : Option JsValue → Bool
  | none => false
  | some (JsValue.str s) => !(s = "")
  | some (JsValue.arr _) => true

/-- JavaScript `s.startsWith(pat)`, embedded on character lists. -/
def strStartsWith (s pat : String) : Bool :=
  pat.data.isPrefixOf s.data

/-- JavaScript `s.endsWith(pat)`, embedded on character lists. -/
def strEndsWith (s pat : String) : Bool :=
  pat.data.isSuffixOf s.data

/-- JavaScript `a || b` for an optional string `a`: absent or empty
falls back to `b`. -/
def jsOrStr (o : Option String) (d : String) : String :=
  match o with
  | none => d
  | some s => if s = "" then d else s

/-- One iteration of the `Array.from(form.elements).forEach` loop in
`FormHandler.serializeForm` (script.js lines 1041-1068).  Checked
checkboxes/radios append to or create a binding (JS truthiness decides
whether `data[name]` "already exists"); unchecked checkboxes whose name
ends in `[]` materialize an empty array; other non-file/button controls
assign their scalar value, last one wins. -/
def serializeStep (data : Data) (e : Element) : Data :=
  if e.name ≠ "" ∧ e.disabled = false ∧ (e.type = "checkbox" ∨ e.type = "radio") then
    if e.checked = true then
      -- `if (data[element.name])` … push, else fresh binding
      match dataGet data e.name with
      | some (JsValue.arr xs) => dataSet data e.name (JsValue.arr (xs ++ [e.value]))
      | some (JsValue.str s) =>
          if s = "" then
            -- the stored scalar is falsy, so JS takes the "absent" branch
            if strEndsWith e.name "[]" = true then
              dataSet data e.name (JsValue.arr [e.value])
            else dataSet data e.name (JsValue.str e.value)
          else dataSet data e.name (JsValue.arr [s, e.value])
      | none =>
          if strEndsWith e.name "[]" = true then
            dataSet data e.name (JsValue.arr [e.value])
          else dataSet data e.name (JsValue.str e.value)
    else
      -- `else if (element.type === 'checkbox' && !data[element.name])`
      if e.type = "checkbox" ∧ truthyV (dataGet data e.name) = false then
        if strEndsWith e.name "[]" = true then
          dataSet data e.name (JsValue.arr [])
        else data
      else data
  else if e.name ≠ "" ∧ e.disabled = false ∧ e.type ≠ "file" ∧ e.type ≠ "reset"
      ∧ e.type ≠ "submit" ∧ e.type ≠ "button" then
    dataSet data e.name (JsValue.str e.value)
  else data

/-- Embedding of `FormHandler.serializeForm`: fold the per-element step over the
form's controls in document order, starting from the empty object. -/
def serializeForm (elems : List Element) : Data :=
  elems.foldl serializeStep []

/-- Does a looked-up binding hold an array (sequence) value? -/
def isSeqV : Option JsValue → Bool
  | some (JsValue.arr _) => true
  | _ => false

theorem dataGet_dataSet_self (d : Data) (k : String) (v : JsValue) :
    dataGet (dataSet d k v) k = some v := by
  induction d with
  | nil => simp [dataSet, dataGet]
  | cons p rest ih =>
    obtain ⟨k', w⟩ := p
    by_cases h : k' = k
    · simp [dataSet, dataGet, h]
    · simp [dataSet, dataGet, h, ih]

theorem dataGet_dataSet_ne (d : Data) (k n : String) (v : JsValue) (h : k ≠ n) :
    dataGet (dataSet d k v) n = dataGet d n := by
  induction d with
  | nil => simp [dataSet, dataGet, h]
  | cons p rest ih =>
    obtain ⟨k', w⟩ := p
    by_cases h2 : k' = k
    · subst h2; simp [dataSet, dataGet, h]
    · simp [dataSet, dataGet, h2, ih]

/-- Every branch of the per-element step either leaves the object alone or
assigns to the element's own name. -/
theorem serializeStep_shape (data : Data) (e : Element) :
    serializeStep data e = data ∨ ∃ v, serializeStep data e = dataSet data e.name v := by
  unfold serializeStep
  repeat' split
  all_goals first
    | exact Or.inl rfl
    | exact Or.inr ⟨_, rfl⟩

/-- An element with a different name, or a disabled element, never touches
the binding of `n`. -/
theorem dataGet_serializeStep_ne (data : Data) (e : Element) (n : String)
    (h : e.name ≠ n ∨ e.disabled = true) :
    dataGet (serializeStep data e) n = dataGet data n := by
  rcases h with h | h
  · rcases serializeStep_shape data e with h2 | ⟨v, h2⟩
    · rw [h2]
    · rw [h2, dataGet_dataSet_ne _ _ _ _ h]
  · simp [serializeStep, h]

theorem dataGet_foldl_ne (elems : List Element) (acc : Data) (n : String)
    (h : ∀ e ∈ elems, e.name ≠ n ∨ e.disabled = true) :
    dataGet (List.foldl serializeStep acc elems) n = dataGet acc n := by
  induction elems generalizing acc with
  | nil => rfl
  | cons e rest ih =>
    rw [List.foldl_cons, ih _ (fun x hx => h x (List.mem_cons_of_mem _ hx)),
      dataGet_serializeStep_ne _ _ _ (h e (List.mem_cons_self _ _))]

/-- Fold invariant for the empty-collection edge case: once the binding of
a `[]`-suffixed checkbox-group name is the empty array it stays so, and an
enabled unchecked checkbox of the group materializes it when absent. -/
theorem serializeForm_emptyGroup_fold (n : String)
    (hn : strEndsWith n "[]" = true) (hne : n ≠ "") :
    ∀ (elems : List Element) (acc : Data),
    (∀ e ∈ elems, e.name = n → e.disabled = false →
      e.type = "checkbox" ∧ e.checked = false) →
    (dataGet acc n = none ∨ dataGet acc n = some (JsValue.arr [])) →
    ((∃ e ∈ elems, e.name = n ∧ e.disabled = false) ∨
      dataGet acc n = some (JsValue.arr [])) →
    dataGet (List.foldl serializeStep acc elems) n = some (JsValue.arr []) := by
  intro elems
  induction elems with
  | nil =>
    intro acc _ _ hex
    rcases hex with ⟨e, he, _⟩ | h
    · exact absurd he (List.not_mem_nil e)
    · exact h
  | cons e rest ih =>
    intro acc hall hinv hex
    rw [List.foldl_cons]
    by_cases hrel : e.name = n ∧ e.disabled = false
    · obtain ⟨hty, hck⟩ := hall e (List.mem_cons_self _ _) hrel.1 hrel.2
      have hstep : dataGet (serializeStep acc e) n = some (JsValue.arr []) := by
        rcases hinv with h0 | h0 <;>
          simp [serializeStep, hrel.1, hrel.2, hty, hck, h0, hne, hn, truthyV,
            dataGet_dataSet_self]
      exact ih _ (fun x hx => hall x (List.mem_cons_of_mem _ hx))
        (Or.inr hstep) (Or.inr hstep)
    · have hside : e.name ≠ n ∨ e.disabled = true := by
        rcases not_and_or.mp hrel with h | h
        · exact Or.inl h
        · exact Or.inr (by simpa using h)
      have hpres := dataGet_serializeStep_ne acc e n hside
      refine ih _ (fun x hx => hall x (List.mem_cons_of_mem _ hx)) ?_ ?_
      · rw [hpres]; exact hinv
      · rcases hex with ⟨e', he', hprop⟩ | h
        · rcases List.mem_cons.mp he' with rfl | hmem
          · exact absurd ⟨hprop.1, hprop.2⟩ hrel
          · exact Or.inl ⟨e', hmem, hprop⟩
        · exact Or.inr (by rw [hpres]; exact h)

/-- C1: for every form whose controls include a checkbox group whose name
ends with the collection-marker suffix `[]` (every enabled control with
that name is an unchecked checkbox, and at least one such enabled control
exists), `serializeForm` binds that field name to the empty sequence, so
the key is present and never absent. -/
theorem serializeForm_emptyCheckboxGroup (elems : List Element) (n : String)
    (hn : strEndsWith n "[]" = true)
    (hall : ∀ e ∈ elems, e.name = n → e.disabled = false →
      e.type = "checkbox" ∧ e.checked = false)
    (hex : ∃ e ∈ elems, e.name = n ∧ e.disabled = false) :
    dataGet (serializeForm elems) n = some (JsValue.arr []) := by
  have hne : n ≠ "" := by
    intro h
    subst h
    exact absurd hn (by decide)
  exact serializeForm_emptyGroup_fold n hn hne elems [] hall (Or.inl rfl) (Or.inl hex)

/-- Witness for C1 at a concrete one-checkbox group named `skills[]`. -/
theorem serializeForm_emptyCheckboxGroup_witness :
    strEndsWith "skills[]" "[]" = true ∧
    dataGet (serializeForm
      [⟨"skills[]", "checkbox", "logistics", false, false, "logistics", false⟩])
      "skills[]" = some (JsValue.arr []) :=
  ⟨by decide,
   serializeForm_emptyCheckboxGroup
     [⟨"skills[]", "checkbox", "logistics", false, false, "logistics", false⟩]
     "skills[]" (by decide) (by decide) (by decide)⟩

/-- C6 counterexample: a form with two enabled checked checkboxes sharing
the non-collection name `a`, the first with value `""` and the second with
value `x`.  Because `serializeForm` tests the stored binding with JS
truthiness, the falsy stored scalar `""` is treated as absent and the
second box overwrites it: the result is the scalar `x`, not a sequence of
both checked values, refuting the claim as stated. -/
theorem serializeForm_dupName_counterexample :
    serializeForm
      [⟨"a", "checkbox", "", true, false, "", true⟩,
       ⟨"a", "checkbox", "x", true, false, "x", true⟩] = [("a", JsValue.str "x")] ∧
    isSeqV (dataGet (serializeForm
      [⟨"a", "checkbox", "", true, false, "", true⟩,
       ⟨"a", "checkbox", "x", true, false, "x", true⟩]) "a") = false := by
  decide

/-- A checked enabled checkbox whose binding is absent and whose name
lacks the `[]` suffix writes its scalar value. -/
theorem serializeStep_checked_none (acc : Data) (e : Element)
    (ht : e.type = "checkbox") (hc : e.checked = true) (hd : e.disabled = false)
    (hne : e.name ≠ "") (hn : strEndsWith e.name "[]" = false)
    (hget : dataGet acc e.name = none) :
    serializeStep acc e = dataSet acc e.name (JsValue.str e.value) := by
  simp [serializeStep, ht, hc, hd, hne, hn, hget]

/-- A checked enabled checkbox whose binding holds a truthy (non-empty)
scalar converts it to the two-element sequence. -/
theorem serializeStep_checked_str (acc : Data) (e : Element) (s : String)
    (ht : e.type = "checkbox") (hc : e.checked = true) (hd : e.disabled = false)
    (hne : e.name ≠ "") (hs : s ≠ "")
    (hget : dataGet acc e.name = some (JsValue.str s)) :
    serializeStep acc e = dataSet acc e.name (JsValue.arr [s, e.value]) := by
  simp [serializeStep, ht, hc, hd, hne, hs, hget]

/-- C6 amended: in a form whose enabled controls carrying a given
non-collection-marker name are exactly two checked checkboxes, and whose
first such box carries a non-empty value, `serializeForm` yields for that
name the sequence of both checked values in document order. -/
theorem serializeForm_dupName_bothValues
    (pre mid post : List Element) (e1 e2 : Element)
    (hname : e2.name = e1.name)
    (hn1 : strEndsWith e1.name "[]" = false) (hne : e1.name ≠ "")
    (ht1 : e1.type = "checkbox") (ht2 : e2.type = "checkbox")
    (hc1 : e1.checked = true) (hc2 : e2.checked = true)
    (hd1 : e1.disabled = false) (hd2 : e2.disabled = false)
    (hv1 : e1.value ≠ "")
    (hothers : ∀ e, e ∈ pre ∨ e ∈ mid ∨ e ∈ post →
      e.name ≠ e1.name ∨ e.disabled = true) :
    dataGet (serializeForm (pre ++ e1 :: (mid ++ e2 :: post))) e1.name
      = some (JsValue.arr [e1.value, e2.value]) := by
  have hpre : dataGet (List.foldl serializeStep [] pre) e1.name = none :=
    dataGet_foldl_ne pre [] e1.name (fun e he => hothers e (Or.inl he))
  unfold serializeForm
  rw [List.foldl_append, List.foldl_cons,
    serializeStep_checked_none _ _ ht1 hc1 hd1 hne hn1 hpre,
    List.foldl_append, List.foldl_cons]
  have hmid : dataGet (List.foldl serializeStep
      (dataSet (List.foldl serializeStep [] pre) e1.name (JsValue.str e1.value))
      mid) e1.name = some (JsValue.str e1.value) := by
    rw [dataGet_foldl_ne mid _ _ (fun e he => hothers e (Or.inr (Or.inl he))),
      dataGet_dataSet_self]
  rw [serializeStep_checked_str _ e2 e1.value ht2 hc2 hd2
    (by rw [hname]; exact hne) hv1 (by rw [hname]; exact hmid)]
  rw [dataGet_foldl_ne post _ _ (fun e he => hothers e (Or.inr (Or.inr he))),
    hname, dataGet_dataSet_self]

/-- Witness for the amended C6 at two concrete checked checkboxes. -/
theorem serializeForm_dupName_bothValues_witness :
    dataGet (serializeForm
      [⟨"a", "checkbox", "v1", true, false, "v1", true⟩,
       ⟨"a", "checkbox", "v2", true, false, "v2", true⟩]) "a"
      = some (JsValue.arr ["v1", "v2"]) :=
  serializeForm_dupName_bothValues [] [] []
    ⟨"a", "checkbox", "v1", true, false, "v1", true⟩
    ⟨"a", "checkbox", "v2", true, false, "v2", true⟩
    rfl (by decide) (by decide) rfl rfl rfl rfl rfl rfl (by decide)
    (fun e h => by
      rcases h with h | h | h <;> exact absurd h (List.not_mem_nil e))

/-- Nondeterministic inputs of the mock gateway: the `Math.random()`
draws feeding the dashboard statistics and the `Date`-derived timestamp
strings. -/
structure Env where
  nowIso : String
  isoDaysAgo : Nat → String
  r1 : Float
  r2 : Float
  r3 : Float
  r4 : Float
  r5 : Float

/-- A simulated map data point from the `/dashboard` mock payload. -/
structure MapPoint where
  id : String
  lat : Float
  lng : Float
  value : Float
  label : String
  severity : String

/-- A simulated alert from the `/dashboard` mock payload. -/
structure AlertItem where
  id : String
  region : String
  level : String
  message : String
  timestamp : String

/-- The `data` object of the `/dashboard` mock payload. -/
structure DashboardData where
  globalHungerIndex : Float
  peopleAffected : Float
  fundingGap : Float
  fundingProgress : Float
  activeProjects : Float
  lastUpdated : String
  mapData : List MapPoint
  alerts : List AlertItem

/-- A project record from the `/projects` mock payload. -/
structure Project where
  id : String
  title : String
  region : String
  type : String
  description : String
  fundingProgress : Nat
  fundingGoal : Nat
  image : String

/-- The `data` part of a gateway payload: dashboard object, project list,
or absent (form submissions only carry `success`/`message`). -/
inductive ApiData where
  | dashboard (d : DashboardData)
  | projects (ps : List Project)
  | noData

/-- A resolved gateway payload (`{success, data?, message?}`). -/
structure ApiResponse where
  success : Bool
  data : ApiData
  message : Option String

/-- The options object passed to `Utils.fetchData` (method, JSON body,
and the `params` used by the `/projects` mock filter). -/
structure FetchOptions where
  method : Option String := none
  body : Option Data := none
  paramsRegion : Option String := none
  paramsType : Option String := none

/-- The canned `mapData` of the `/dashboard` mock. -/
def dashboardMapData : List MapPoint :=
  [⟨"AFR-SAH", 15, 0, 38.5, "Sahel", "critical"⟩,
   ⟨"ASIA-SE", 10, 110, 15.1, "Sudeste Asiático", "moderate"⟩,
   ⟨"LATAM-CA", 15, -90, 22.0, "América Central", "high"⟩,
   ⟨"MENA", 25, 30, 28.9, "Oriente Médio/N. África", "high"⟩]

/-- The canned `alerts` of the `/dashboard` mock. -/
def dashboardAlerts (env : Env) : List AlertItem :=
  [⟨"ALERT001", "Sahel", "critical",
    "Seca severa impacta colheitas. Necessidade imediata de ajuda.", env.isoDaysAgo 2⟩,
   ⟨"ALERT002", "Iêmen", "high",
    "Acesso humanitário restrito. Voluntários de logística necessários.", env.isoDaysAgo 3⟩,
   ⟨"ALERT003", "Chifre da África", "critical",
    "Surto de Gafanhotos. Risco iminente.", env.isoDaysAgo 1⟩,
   ⟨"ALERT004", "América Central", "medium",
    "Impacto pós-furacão. Necessidade de sementes.", env.isoDaysAgo 7⟩]

/-- The `/dashboard` mock payload body (script.js lines 104-128). -/
def dashboardPayload (env : Env) : DashboardData :=
  { globalHungerIndex := 18.2 + (env.r1 - 0.5)
    peopleAffected := 811 + Float.floor (env.r2 * 10 - 5)
    fundingGap := 7.3 + (env.r3 - 0.5)
    fundingProgress := 65 + Float.floor (env.r4 * 10 - 5)
    activeProjects := 1245 + Float.floor (env.r5 * 20 - 10)
    lastUpdated := env.nowIso
    mapData := dashboardMapData
    alerts := dashboardAlerts env }

/-- The canned project list of the `/projects` mock. -/
def allProjects : List Project :=
  [⟨"PROJAFR05", "Controle de Gafanhotos no Chifre da África", "AFR-SAH",
    "agriculture_support", "Apoio a comunidades locais com monitoramento...",
    75, 500000, "/assets/images/project-locust.jpg"⟩,
   ⟨"PROJLATAM02", "Alimentação Escolar na América Central", "LATAM-CA",
    "school_feeding", "Garantir refeições nutritivas diárias...",
    90, 300000, "/assets/images/project-school-meal.jpg"⟩,
   ⟨"PROJASIA01", "Sementes Resilientes no Sudeste Asiático", "ASIA-SE",
    "agriculture_support", "Distribuição de sementes adaptadas...",
    60, 400000, "/assets/images/project-seeds.jpg"⟩,
   ⟨"PROJMENA03", "Ajuda Emergencial no Iêmen", "MENA",
    "emergency_relief", "Kits de alimentos e higiene para famílias deslocadas.",
    85, 1000000, "/assets/images/project-emergency.jpg"⟩]

/-- Embedding of `Utils.fetchData` (script.js lines 94-156): resolves with a canned
payload selected by path prefix, or rejects with a generic error for
unmatched prefixes.  The artificial latency does not affect the settled
value and is not modelled. -/
def fetchData (endpoint : String) (opts : FetchOptions) (env : Env) :
    Except String ApiResponse :=
  if strStartsWith endpoint "/dashboard" = true then
    Except.ok { success := true, data := ApiData.dashboard (dashboardPayload env),
                message := none }
  else if strStartsWith endpoint "/projects" = true then
    let regionFilter := jsOrStr opts.paramsRegion "all"
    let typeFilter := jsOrStr opts.paramsType "all"
    Except.ok { success := true,
                data := ApiData.projects (allProjects.filter fun p =>
                  (decide (regionFilter = "all") || decide (p.region = regionFilter)) &&
                  (decide (typeFilter = "all") || decide (p.type = typeFilter))),
                message := none }
  else if (strStartsWith endpoint "/process-donation" ||
      strStartsWith endpoint "/process-volunteer" ||
      strStartsWith endpoint "/subscribe-newsletter") = true then
    Except.ok { success := true, data := ApiData.noData,
                message := some "Dados recebidos com sucesso!" }
  else
    Except.error ("Falha ao buscar dados de " ++ endpoint)

/-- Does the endpoint start with one of the five mocked path roots? -/
def mockedRoute (endpoint : String) : Bool :=
  strStartsWith endpoint "/dashboard" || strStartsWith endpoint "/projects" ||
  strStartsWith endpoint "/process-donation" ||
  strStartsWith endpoint "/process-volunteer" ||
  strStartsWith endpoint "/subscribe-newsletter"

/-- Embedding of `ApiService.submitDonation` (script.js lines 649-662), as a function
of the settled gateway result: pass through success, otherwise throw
`response.message || 'Falha ao processar doação.'`. -/
def submitDonationApi (r : Except String ApiResponse) : Except String ApiResponse :=
  match r with
  | Except.error e => Except.error e
  | Except.ok resp =>
      if resp.success then Except.ok resp
      else Except.error (jsOrStr resp.message "Falha ao processar doação.")

/-- Embedding of `ApiService.submitVolunteerForm` (script.js lines 665-678). -/
def submitVolunteerApi (r : Except String ApiResponse) : Except String ApiResponse :=
  match r with
  | Except.error e => Except.error e
  | Except.ok resp =>
      if resp.success then Except.ok resp
      else Except.error (jsOrStr resp.message "Falha ao enviar inscrição.")

/-- Embedding of `ApiService.submitNewsletter` (script.js lines 681-694). -/
def submitNewsletterApi (r : Except String ApiResponse) : Except String ApiResponse :=
  match r with
  | Except.error e => Except.error e
  | Except.ok resp =>
      if resp.success then Except.ok resp
      else Except.error (jsOrStr resp.message "Falha ao inscrever na newsletter.")

/-- A transient feedback banner (`UI.displayFeedback` call): message and
severity kind. -/
structure Feedback where
  message : String
  kind : String
deriving Repr, DecidableEq

/-- The observable outcome of one submit-handler run: whether the gateway
was invoked, the JSON body sent, the feedback banner shown, the submit
control's final disabled/text/loading state, and the form's field state. -/
structure Outcome where
  networkCalled : Bool
  payload : Option Data
  feedback : Option Feedback
  btnDisabled : Bool
  btnText : String
  loader : Bool
  fields : List Element
deriving Repr, DecidableEq

/-- Effect of `form.reset()` on one control: restore the HTML default value and
checked state. -/
def resetField (e : Element) : Element :=
  { e with value := e.defaultValue, checked := e.defaultChecked }

/-- Effect of `form.reset()` on the whole form. -/
def resetFields (elems : List Element) : List Element :=
  elems.map resetField

/-- The `finally` block shared by the three submit handlers: remove the
scoped loading indicator, re-enable the submit control, restore its
original label. -/
def finallyRestore (o : Outcome) (origText : String) : Outcome :=
  { o with loader := false, btnDisabled := false, btnText := origText }

/-- Which donation-form conditional groups are visible: monetary fields,
goods fields, the payment-method group, and the pix detail panel. -/
structure Vis where
  money : Bool
  goods : Bool
  payment : Bool
  pix : Bool
deriving Repr, DecidableEq

/-- Value of the first checked control with the given name, mirroring
the selector query `input[name=n]:checked` with optional chaining on
`value`. -/
def checkedValue (n : String) (elems : List Element) : Option String :=
  (elems.find? fun e => decide (e.name = n) && e.checked).map Element.value

/-- True when the selector query for a checked `payment_method` control
with value `pix` finds a match. -/
def pixChecked (elems : List Element) : Bool :=
  elems.any fun e =>
    decide (e.name = "payment_method") && decide (e.value = "pix") && e.checked

/-- Embedding of `toggleDonationFields` (script.js lines 820-844): hide everything,
then show the group selected by the donation type; for `money` also show
the payment methods, and the pix panel exactly when the pix radio is
currently checked.  (`time` clicks over to the volunteer tab and shows
none of the groups.) -/
def toggleDonationFields (sel : String) (pixIsChecked : Bool) : Vis :=
  if sel = "money" then
    { money := true, goods := false, payment := true, pix := pixIsChecked }
  else if sel = "goods" then
    { money := false, goods := true, payment := false, pix := false }
  else
    { money := false, goods := false, payment := false, pix := false }

/-- The visibility computation `initDonationForm` performs both at
initialization (lines 852-853 and 886-887) and after a successful
submission (lines 940-942): apply `toggleDonationFields` for the
donation type captured at page load when that value is truthy (reading
the pix radio state from the live form), then hide the pix panel unless
the payment method captured at page load was `pix`. -/
def applyDonationVisRules (captured live : List Element) (fallback : Vis) : Vis :=
  let v := match checkedValue "donation_type" captured with
    | some t => if t = "" then fallback else toggleDonationFields t (pixChecked live)
    | none => fallback
  if checkedValue "payment_method" captured = some "pix" then v
  else { v with pix := false }

/-- Donation-form visibility right after page-load initialization, where
the live form still equals the captured form and `fallback` is the static
HTML visibility. -/
def donationInitVis (elems0 : List Element) (htmlVis : Vis) : Vis :=
  applyDonationVisRules elems0 elems0 htmlVis

/-- The donation-form submit handler (script.js lines 914-951) as a
function of: the form controls captured at initialization (`captured`),
the controls at submit time (`elems`), the conditional-group visibility
at submit time (`vis`), the result of `form.checkValidity()` (`valid`),
the submit control's original label, and the settled gateway result.
Returns the observable outcome plus the resulting visibility. -/
def donationSubmit (captured elems : List Element) (vis : Vis) (valid : Bool)
    (origText : String) (fetchResult : Except String ApiResponse) :
    Outcome × Vis :=
  if valid = false then
    ({ networkCalled := false, payload := none
       feedback := some ⟨"Por favor, corrija os erros no formulário.", "error"⟩
       btnDisabled := false, btnText := origText, loader := false
       fields := elems }, vis)
  else
    let payload := serializeForm elems
    let result : Outcome × Vis :=
      match submitDonationApi fetchResult with
      | Except.ok resp =>
          ({ networkCalled := true, payload := some payload
             feedback := some ⟨jsOrStr resp.message "Doação processada com sucesso!",
               "success"⟩
             btnDisabled := true, btnText := "Processando...", loader := true
             fields := resetFields elems },
           applyDonationVisRules captured (resetFields elems) vis)
      | Except.error e =>
          ({ networkCalled := true, payload := some payload
             feedback := some ⟨"Erro ao processar doação: " ++ e, "error"⟩
             btnDisabled := true, btnText := "Processando...", loader := true
             fields := elems }, vis)
    (finallyRestore result.1 origText, result.2)

/-- Values of the checked checkbox/radio controls named `skills[]`, in
document order, mirroring the selector query the volunteer handler runs
before submitting. -/
def checkedSkillValues (elems : List Element) : List String :=
  (elems.filter fun e =>
    (decide (e.type = "checkbox") || decide (e.type = "radio")) &&
    decide (e.name = "skills[]") && e.checked).map Element.value

/-- The volunteer-form submit handler (script.js lines 959-991): after
generic serialization, the `skills` property of the payload is overridden
with the explicit checked-values list. -/
def volunteerSubmit (elems : List Element) (valid : Bool) (origText : String)
    (fetchResult : Except String ApiResponse) : Outcome :=
  if valid = false then
    { networkCalled := false, payload := none
      feedback := some ⟨"Por favor, preencha os campos obrigatórios.", "error"⟩
      btnDisabled := false, btnText := origText, loader := false
      fields := elems }
  else
    let payload :=
      dataSet (serializeForm elems) "skills" (JsValue.arr (checkedSkillValues elems))
    let result : Outcome :=
      match submitVolunteerApi fetchResult with
      | Except.ok resp =>
          { networkCalled := true, payload := some payload
            feedback := some ⟨jsOrStr resp.message
              "Inscrição enviada com sucesso! Entraremos em contato.", "success"⟩
            btnDisabled := true, btnText := "Enviando...", loader := true
            fields := resetFields elems }
      | Except.error e =>
          { networkCalled := true, payload := some payload
            feedback := some ⟨"Erro ao enviar inscrição: " ++ e, "error"⟩
            btnDisabled := true, btnText := "Enviando...", loader := true
            fields := elems }
    finallyRestore result origText

/-- The newsletter-form submit handler (script.js lines 999-1028): the
email input's value and `checkValidity()` result gate the submission
(JS: `if (!email || !emailInput.checkValidity())`); the submit control's
label is never swapped, only disabled and given a loading indicator. -/
def newsletterSubmit (email : String) (emailValid : Bool) (elems : List Element)
    (origText : String) (fetchResult : Except String ApiResponse) : Outcome :=
  if email = "" ∨ emailValid = false then
    { networkCalled := false, payload := none
      feedback := some ⟨"Por favor, insira um email válido.", "error"⟩
      btnDisabled := false, btnText := origText, loader := false
      fields := elems }
  else
    let payload : Data := [("email", JsValue.str email)]
    let result : Outcome :=
      match submitNewsletterApi fetchResult with
      | Except.ok resp =>
          { networkCalled := true, payload := some payload
            feedback := some ⟨jsOrStr resp.message "Inscrição realizada com sucesso!",
              "success"⟩
            btnDisabled := true, btnText := origText, loader := true
            fields := resetFields elems }
      | Except.error e =>
          { networkCalled := true, payload := some payload
            feedback := some ⟨"Erro na inscrição: " ++ e, "error"⟩
            btnDisabled := true, btnText := origText, loader := true
            fields := elems }
    finallyRestore result origText

/-- The persisted-theme state: `appState.currentTheme` and the value
stored under `config.themeLocalStorageKey`. -/
structure ThemeState where
  currentTheme : String
  storedTheme : Option String
deriving Repr, DecidableEq

/-- Theme initialization at load:
`localStorage.getItem(key) || 'light'` (script.js line 37). -/
def initTheme (stored : Option String) : ThemeState :=
  { currentTheme := jsOrStr stored "light", storedTheme := stored }

/-- Embedding of `toggleTheme` (script.js lines 1499-1509): flip the current theme and
persist it. -/
def toggleTheme (s : ThemeState) : ThemeState :=
  let t := if s.currentTheme = "light" then "dark" else "light"
  { currentTheme := t, storedTheme := some t }

/-- The `mapData` carried by a gateway payload (empty for non-dashboard
payloads). -/
def responseMapData (r : ApiResponse) : List MapPoint :=
  match r.data with
  | ApiData.dashboard d => d.mapData
  | _ => []

/-- Concrete gateway options used by witnesses. -/
def defaultOpts : FetchOptions := {}

/-- Concrete gateway environment used by witnesses. -/
def defaultEnv : Env := ⟨"", fun _ => "", 0, 0, 0, 0, 0⟩

theorem append_ne_empty_left (s t : String) (h : s ≠ "") : s ++ t ≠ "" := by
  intro hc
  apply h
  have hd := congrArg String.data hc
  simp only [String.data_append] at hd
  rcases List.append_eq_nil.mp hd with ⟨hs, _⟩
  exact String.ext hs

/-- Two lists that are both prefixes of a third are comparable. -/
theorem isPrefixOf_total (p q e : List Char) (h1 : p.isPrefixOf e = true)
    (h2 : q.isPrefixOf e = true) :
    (p.isPrefixOf q || q.isPrefixOf p) = true := by
  induction e generalizing p q with
  | nil =>
    cases p with
    | nil => simp [List.isPrefixOf]
    | cons a as => simp [List.isPrefixOf] at h1
  | cons c cs ih =>
    cases p with
    | nil => simp [List.isPrefixOf]
    | cons a as =>
      cases q with
      | nil => simp [List.isPrefixOf]
      | cons b bs =>
        simp only [List.isPrefixOf, Bool.and_eq_true, beq_iff_eq] at h1 h2 ⊢
        obtain ⟨hac, h1'⟩ := h1
        obtain ⟨hbc, h2'⟩ := h2
        subst hac
        subst hbc
        simpa using ih as bs h1' h2'

/-- An endpoint matching route `q` cannot match an incomparable route `p`. -/
theorem route_excludes (e p q : String)
    (hpq : (p.data.isPrefixOf q.data || q.data.isPrefixOf p.data) = false)
    (h : strStartsWith e q = true) : strStartsWith e p = false := by
  cases hx : strStartsWith e p with
  | false => rfl
  | true =>
    have htot := isPrefixOf_total p.data q.data e.data hx h
    rw [htot] at hpq
    exact Bool.noConfusion hpq

/-- C2: for every submission attempt on any of the three forms in which
native constraint validation fails (`checkValidity()` returns false), the
gateway is never invoked, an error-severity notice is emitted, and the
form's field values are exactly as before the submit intent. -/
theorem invalidSubmit_noNetwork (captured elems : List Element) (vis : Vis)
    (origText : String) (fr : Except String ApiResponse)
    (elemsV : List Element) (origTextV : String) (frV : Except String ApiResponse)
    (email : String) (elemsN : List Element) (origTextN : String)
    (frN : Except String ApiResponse) :
    ((donationSubmit captured elems vis false origText fr).1.networkCalled = false ∧
      (donationSubmit captured elems vis false origText fr).1.feedback =
        some ⟨"Por favor, corrija os erros no formulário.", "error"⟩ ∧
      (donationSubmit captured elems vis false origText fr).1.fields = elems) ∧
    ((volunteerSubmit elemsV false origTextV frV).networkCalled = false ∧
      (volunteerSubmit elemsV false origTextV frV).feedback =
        some ⟨"Por favor, preencha os campos obrigatórios.", "error"⟩ ∧
      (volunteerSubmit elemsV false origTextV frV).fields = elemsV) ∧
    ((newsletterSubmit email false elemsN origTextN frN).networkCalled = false ∧
      (newsletterSubmit email false elemsN origTextN frN).feedback =
        some ⟨"Por favor, insira um email válido.", "error"⟩ ∧
      (newsletterSubmit email false elemsN origTextN frN).fields = elemsN) := by
  refine ⟨⟨rfl, rfl, rfl⟩, ⟨rfl, rfl, rfl⟩, ?_⟩
  simp [newsletterSubmit]

/-- C3: for every submission that enters the `Submitting` state (validation
passed), whatever the settled gateway result is — resolution or rejection —
the submit control ends up re-enabled with its original label and without
the scoped loading indicator, on both outcome paths of all three forms
(the newsletter statement covers every attempt, which subsumes the ones
entering `Submitting`). -/
theorem submitCleanup_bothPaths (captured elems : List Element) (vis : Vis)
    (origText : String) (fr : Except String ApiResponse)
    (elemsV : List Element) (origTextV : String) (frV : Except String ApiResponse)
    (email : String) (emailValid : Bool) (elemsN : List Element)
    (origTextN : String) (frN : Except String ApiResponse) :
    ((donationSubmit captured elems vis true origText fr).1.btnDisabled = false ∧
      (donationSubmit captured elems vis true origText fr).1.btnText = origText ∧
      (donationSubmit captured elems vis true origText fr).1.loader = false) ∧
    ((volunteerSubmit elemsV true origTextV frV).btnDisabled = false ∧
      (volunteerSubmit elemsV true origTextV frV).btnText = origTextV ∧
      (volunteerSubmit elemsV true origTextV frV).loader = false) ∧
    ((newsletterSubmit email emailValid elemsN origTextN frN).btnDisabled = false ∧
      (newsletterSubmit email emailValid elemsN origTextN frN).btnText = origTextN ∧
      (newsletterSubmit email emailValid elemsN origTextN frN).loader = false) := by
  refine ⟨⟨rfl, rfl, rfl⟩, ⟨rfl, rfl, rfl⟩, ?_⟩
  by_cases h : email = "" ∨ emailValid = false <;>
    simp [newsletterSubmit, h, finallyRestore]

/-- C5: for every volunteer-form submission that passes validation, the
payload handed to the API facade carries under `skills` exactly the
ordered list of checked values of the group named `skills[]` — replacing
whatever generic serialization produced for that key — and an empty
sequence when nothing is checked. -/
theorem volunteerPayload_skillsOverride (elems : List Element) (origText : String)
    (fr : Except String ApiResponse) :
    ∃ p, (volunteerSubmit elems true origText fr).payload = some p ∧
      dataGet p "skills" = some (JsValue.arr (checkedSkillValues elems)) ∧
      (checkedSkillValues elems = [] →
        dataGet p "skills" = some (JsValue.arr [])) := by
  refine ⟨dataSet (serializeForm elems) "skills"
    (JsValue.arr (checkedSkillValues elems)), ?_,
    dataGet_dataSet_self _ _ _,
    fun h => by rw [dataGet_dataSet_self, h]⟩
  cases hfr : submitVolunteerApi fr with
  | ok resp => simp [volunteerSubmit, hfr, finallyRestore]
  | error e => simp [volunteerSubmit, hfr, finallyRestore]

/-- C7: for every endpoint matching none of the five mocked roots, the
gateway rejects with a non-empty message, and a form pipeline receiving
that rejection shows an error-severity notice with a non-empty message
and leaves the submit control re-enabled. -/
theorem unmockedEndpoint_rejects_errorNotice (endpoint : String)
    (opts : FetchOptions) (env : Env) (captured elems : List Element) (vis : Vis)
    (origText : String) (hun : mockedRoute endpoint = false) :
    ∃ m, fetchData endpoint opts env = Except.error m ∧ m ≠ "" ∧
      (donationSubmit captured elems vis true origText
        (fetchData endpoint opts env)).1.feedback =
        some ⟨"Erro ao processar doação: " ++ m, "error"⟩ ∧
      ("Erro ao processar doação: " ++ m) ≠ "" ∧
      (donationSubmit captured elems vis true origText
        (fetchData endpoint opts env)).1.btnDisabled = false := by
  simp only [mockedRoute, Bool.or_eq_false_iff] at hun
  obtain ⟨⟨⟨⟨h1, h2⟩, h3⟩, h4⟩, h5⟩ := hun
  have hfd : fetchData endpoint opts env =
      Except.error ("Falha ao buscar dados de " ++ endpoint) := by
    simp [fetchData, h1, h2, h3, h4, h5]
  refine ⟨"Falha ao buscar dados de " ++ endpoint, hfd,
    append_ne_empty_left _ _ (by decide), ?_,
    append_ne_empty_left _ _ (by decide), rfl⟩
  simp [donationSubmit, hfd, submitDonationApi, finallyRestore]

/-- Witness for C7 at the concrete unmocked endpoint `/totally-unknown`. -/
theorem unmockedEndpoint_rejects_errorNotice_witness :
    mockedRoute "/totally-unknown" = false ∧
    (∃ m, fetchData "/totally-unknown" defaultOpts defaultEnv = Except.error m ∧
      m ≠ "" ∧
      (donationSubmit [] [] ⟨false, false, false, false⟩ true "Doar Agora"
        (fetchData "/totally-unknown" defaultOpts defaultEnv)).1.feedback =
        some ⟨"Erro ao processar doação: " ++ m, "error"⟩ ∧
      ("Erro ao processar doação: " ++ m) ≠ "" ∧
      (donationSubmit [] [] ⟨false, false, false, false⟩ true "Doar Agora"
        (fetchData "/totally-unknown" defaultOpts defaultEnv)).1.btnDisabled = false) :=
  ⟨by decide,
   unmockedEndpoint_rejects_errorNotice "/totally-unknown" defaultOpts defaultEnv
     [] [] ⟨false, false, false, false⟩ "Doar Agora" (by decide)⟩

/-- C8: every `/dashboard`-rooted call resolves with `success = true` and
a `mapData` array of length at least 1, whatever the random draws are. -/
theorem dashboardEndpoint_success (endpoint : String) (opts : FetchOptions)
    (env : Env) (h : strStartsWith endpoint "/dashboard" = true) :
    ∃ resp, fetchData endpoint opts env = Except.ok resp ∧
      resp.success = true ∧ 1 ≤ (responseMapData resp).length := by
  refine ⟨ApiResponse.mk true (ApiData.dashboard (dashboardPayload env)) none,
    ?_, rfl, ?_⟩
  · simp [fetchData, h]
  · simp [responseMapData, dashboardPayload, dashboardMapData]

/-- Witness for C8 at the concrete endpoint of the spec's property. -/
theorem dashboardEndpoint_success_witness :
    strStartsWith "/dashboard?date=2024-01-01" "/dashboard" = true ∧
    (∃ resp, fetchData "/dashboard?date=2024-01-01" defaultOpts defaultEnv =
        Except.ok resp ∧
      resp.success = true ∧ 1 ≤ (responseMapData resp).length) :=
  ⟨by decide,
   dashboardEndpoint_success "/dashboard?date=2024-01-01" defaultOpts defaultEnv
     (by decide)⟩

/-- C9: starting from a persisted theme preference in {light, dark},
toggling twice returns the persisted preference to its original value. -/
theorem toggleTheme_twice_stored (v : String)
    (h : v = "light" ∨ v = "dark") :
    (toggleTheme (toggleTheme (initTheme (some v)))).storedTheme = some v := by
  rcases h with rfl | rfl <;> rfl

/-- Witness for C9 at the concrete stored preference `light`. -/
theorem toggleTheme_twice_stored_witness :
    ("light" = "light" ∨ "light" = "dark") ∧
    (toggleTheme (toggleTheme (initTheme (some "light")))).storedTheme =
      some "light" :=
  ⟨Or.inl rfl, toggleTheme_twice_stored "light" (Or.inl rfl)⟩

/-- C10: every call to a `/process-donation`, `/process-volunteer` or
`/subscribe-newsletter` endpoint resolves with `success = true`, so the
three facade throw-branches for `success = false` are unreachable (the
facades pass the resolved payload through unchanged); and whenever a
facade call built on the gateway rejects, the endpoint matched none of
the five mocked roots. -/
theorem formEndpoints_alwaysSucceed :
    (∀ (endpoint : String) (opts : FetchOptions) (env : Env),
      (strStartsWith endpoint "/process-donation" ||
       strStartsWith endpoint "/process-volunteer" ||
       strStartsWith endpoint "/subscribe-newsletter") = true →
      ∃ resp, fetchData endpoint opts env = Except.ok resp ∧
        resp.success = true ∧
        submitDonationApi (fetchData endpoint opts env) = Except.ok resp ∧
        submitVolunteerApi (fetchData endpoint opts env) = Except.ok resp ∧
        submitNewsletterApi (fetchData endpoint opts env) = Except.ok resp) ∧
    (∀ (endpoint : String) (opts : FetchOptions) (env : Env) (m : String),
      (submitDonationApi (fetchData endpoint opts env) = Except.error m ∨
       submitVolunteerApi (fetchData endpoint opts env) = Except.error m ∨
       submitNewsletterApi (fetchData endpoint opts env) = Except.error m) →
      mockedRoute endpoint = false) := by
  constructor
  · intro endpoint opts env h
    have hdpr : strStartsWith endpoint "/dashboard" = false ∧
        strStartsWith endpoint "/projects" = false := by
      have h2 := h
      simp only [Bool.or_eq_true] at h2
      rcases h2 with (hx | hx) | hsn
      case inl.inl =>
        exact ⟨route_excludes _ "/dashboard" "/process-donation" (by decide) hx,
            route_excludes _ "/projects" "/process-donation" (by decide) hx⟩
      case inl.inr =>
        exact ⟨route_excludes _ "/dashboard" "/process-volunteer" (by decide) hx,
          route_excludes _ "/projects" "/process-volunteer" (by decide) hx⟩
      case inr =>
        exact ⟨route_excludes _ "/dashboard" "/subscribe-newsletter" (by decide) hsn,
          route_excludes _ "/projects" "/subscribe-newsletter" (by decide) hsn⟩
    have hfd : fetchData endpoint opts env =
        Except.ok ⟨true, ApiData.noData, some "Dados recebidos com sucesso!"⟩ := by
      simp [fetchData, hdpr.1, hdpr.2, h]
    exact ⟨_, hfd, rfl, by simp [submitDonationApi, hfd],
      by simp [submitVolunteerApi, hfd], by simp [submitNewsletterApi, hfd]⟩
  · intro endpoint opts env m hm
    cases hd : strStartsWith endpoint "/dashboard" with
    | true =>
      exfalso
      rcases hm with hm | hm | hm <;>
        simp [submitDonationApi, submitVolunteerApi, submitNewsletterApi,
          fetchData, hd] at hm
    | false =>
      cases hpr : strStartsWith endpoint "/projects" with
      | true =>
        exfalso
        rcases hm with hm | hm | hm <;>
          simp [submitDonationApi, submitVolunteerApi, submitNewsletterApi,
            fetchData, hd, hpr] at hm
      | false =>
        cases hfm : (strStartsWith endpoint "/process-donation" ||
            strStartsWith endpoint "/process-volunteer" ||
            strStartsWith endpoint "/subscribe-newsletter") with
        | true =>
          exfalso
          rcases hm with hm | hm | hm <;>
            simp [submitDonationApi, submitVolunteerApi, submitNewsletterApi,
              fetchData, hd, hpr, hfm] at hm
        | false =>
          simp only [Bool.or_eq_false_iff] at hfm
          simp [mockedRoute, hd, hpr, hfm.1.1, hfm.1.2, hfm.2]

/-- Witness for C10: the two conjuncts applied at `/process-donation`
(mocked form endpoint) and `/nope` (unmocked endpoint). -/
theorem formEndpoints_alwaysSucceed_witness :
    (∃ resp, fetchData "/process-donation" defaultOpts defaultEnv =
        Except.ok resp ∧
      resp.success = true ∧
      submitDonationApi (fetchData "/process-donation" defaultOpts defaultEnv) =
        Except.ok resp ∧
      submitVolunteerApi (fetchData "/process-donation" defaultOpts defaultEnv) =
        Except.ok resp ∧
      submitNewsletterApi (fetchData "/process-donation" defaultOpts defaultEnv) =
        Except.ok resp) ∧
    mockedRoute "/nope" = false :=
  ⟨formEndpoints_alwaysSucceed.1 "/process-donation" defaultOpts defaultEnv
     (by decide),
   formEndpoints_alwaysSucceed.2 "/nope" defaultOpts defaultEnv
     "Falha ao buscar dados de /nope" (Or.inl rfl)⟩

/-- The structural (non-user-editable) part of a control is unchanged:
name, type, disabled flag and HTML defaults. -/
def structEqB (a b : Element) : Bool :=
  decide (a.name = b.name) && decide (a.type = b.type) &&
  decide (a.disabled = b.disabled) && decide (a.defaultValue = b.defaultValue) &&
  decide (a.defaultChecked = b.defaultChecked)

/-- Pointwise structural equality of two forms' control lists (the user
can change values and checked states, not the controls themselves). -/
def formStructEq : List Element → List Element → Bool
  | [], [] => true
  | a :: as, b :: bs => structEqB a b && formStructEq as bs
  | _, _ => false

/-- A control still carries its HTML default value/checked state. -/
def pristineB (e : Element) : Bool :=
  decide (e.value = e.defaultValue) && decide (e.checked = e.defaultChecked)

/-- All controls of a form are in their HTML default state (true of the
page-load form before any user interaction). -/
def allPristine (elems : List Element) : Bool :=
  elems.all pristineB

theorem resetField_of_structEq (a b : Element) (h : structEqB a b = true)
    (hp : pristineB a = true) : resetField b = a := by
  simp only [structEqB, pristineB, Bool.and_eq_true, decide_eq_true_eq] at h hp
  obtain ⟨⟨⟨⟨h1, h2⟩, h3⟩, h4⟩, h5⟩ := h
  obtain ⟨p1, p2⟩ := hp
  cases a
  cases b
  simp_all [resetField]

theorem resetFields_of_formStructEq (l0 l1 : List Element)
    (h : formStructEq l0 l1 = true) (hp : allPristine l0 = true) :
    resetFields l1 = l0 := by
  induction l0 generalizing l1 with
  | nil =>
    cases l1 with
    | nil => rfl
    | cons b bs => exact absurd h (by simp [formStructEq])
  | cons a as ih =>
    cases l1 with
    | nil => exact absurd h (by simp [formStructEq])
    | cons b bs =>
      simp only [formStructEq, Bool.and_eq_true] at h
      simp only [allPristine, List.all_cons, Bool.and_eq_true] at hp
      show resetField b :: resetFields bs = a :: as
      rw [resetField_of_structEq a b h.1 hp.1, ih bs h.2 hp.2]

/-- C4: for every successful donation submission — whatever donation type
and payment method the user selected between page load and submit — the
visibility of the conditional groups (money fields, goods fields,
payment-method group, pix panel) afterwards equals exactly the visibility
at initial page load.  `elems0` is the page-load form (in its HTML default
state, with a truthy checked donation-type radio), `elems1` the same form
at submit time with arbitrarily changed values/checked states, and the
facade call succeeded. -/
theorem donationSuccess_restoresInitialVis (elems0 elems1 : List Element)
    (vis htmlVis : Vis) (origText : String)
    (fetchResult : Except String ApiResponse) (resp : ApiResponse) (t : String)
    (hp : allPristine elems0 = true)
    (hs : formStructEq elems0 elems1 = true)
    (hinit : checkedValue "donation_type" elems0 = some t) (ht : t ≠ "")
    (hok : submitDonationApi fetchResult = Except.ok resp) :
    (donationSubmit elems0 elems1 vis true origText fetchResult).2
      = donationInitVis elems0 htmlVis := by
  have hreset : resetFields elems1 = elems0 :=
    resetFields_of_formStructEq _ _ hs hp
  simp [donationSubmit, hok, donationInitVis, applyDonationVisRules, hinit, ht,
    hreset]

/-- Page-load donation form used by the C4 witness: `money` type and
`card` payment checked by default, `pix` present but unchecked. -/
def c4FormAtLoad : List Element :=
  [⟨"donation_type", "radio", "money", true, false, "money", true⟩,
   ⟨"donation_type", "radio", "goods", false, false, "goods", false⟩,
   ⟨"payment_method", "radio", "card", true, false, "card", true⟩,
   ⟨"payment_method", "radio", "pix", false, false, "pix", false⟩]

/-- The same form at submit time for the C4 witness: the user has picked
`goods` and `pix` in the meantime. -/
def c4FormAtSubmit : List Element :=
  [⟨"donation_type", "radio", "money", false, false, "money", true⟩,
   ⟨"donation_type", "radio", "goods", true, false, "goods", false⟩,
   ⟨"payment_method", "radio", "card", false, false, "card", true⟩,
   ⟨"payment_method", "radio", "pix", true, false, "pix", false⟩]

/-- Witness for C4 at a concrete successful submission. -/
theorem donationSuccess_restoresInitialVis_witness :
    (donationSubmit c4FormAtLoad c4FormAtSubmit ⟨false, true, false, true⟩ true
      "Confirmar Doação"
      (Except.ok ⟨true, ApiData.noData, some "ok"⟩)).2
      = donationInitVis c4FormAtLoad ⟨false, false, false, false⟩ :=
  donationSuccess_restoresInitialVis c4FormAtLoad c4FormAtSubmit
    ⟨false, true, false, true⟩ ⟨false, false, false, false⟩ "Confirmar Doação"
    (Except.ok ⟨true, ApiData.noData, some "ok"⟩)
    ⟨true, ApiData.noData, some "ok"⟩ "money"
    (by decide) (by decide) (by decide) (by decide) rfl

end SGCF
